import Mathlib

/-!
Verification of the cost-governance engine of the repository
(budget_enforcer.py, query_cost_tracker.py, cost_history.py).

Monetary amounts and percentages are modelled as exact rationals (ℚ);
every comparison appearing in the claims is threshold-exact at the
inputs considered, so rational arithmetic models the Python floats
faithfully there.  The one irrational operation in the source, the
square root inside the z-score (`std_dev = variance ** 0.5`, then
`z = diff / std_dev` compared against a positive threshold `t`), is
embedded by the equivalent square-free comparison
`diff^2 > t^2 * variance` (valid since `diff = |cost - mean| ≥ 0`,
`t > 0`, `std_dev = sqrt variance ≥ 0`), keeping every definition
computable and decidable.
-/

namespace CostGovernance

/-- Mirrors `EnforcementLevel` in budget_enforcer.py. -/
inductive EnforcementLevel where
  | none
  | monitoring
  | warning
  | throttling
  | blocking
  | emergency
deriving DecidableEq, Repr, BEq

/-- Mirrors `EnforcementAction` in budget_enforcer.py. -/
inductive EnforcementAction where
  | allow
  | warn
  | throttle
  | block
  | emergencyStop
deriving DecidableEq, Repr, BEq

/-- Mirrors the `BudgetRule` dataclass in budget_enforcer.py
(description omitted; money and thresholds as exact rationals). -/
structure BudgetRule where
  rule_id : String
  name : String
  budget_type : String
  amount_usd : ℚ
  enforcement_level : EnforcementLevel
  actions : List EnforcementAction
  warning_threshold : ℚ
  critical_threshold : ℚ
  enabled : Bool
  created_at : String
  updated_at : String
deriving DecidableEq, Repr

/-- The `daily_budget_limit` rule literal from `initialize_default_rules`,
parameterized by `config.daily_budget_limit_usd`. -/
def mkDailyRule (dailyLimit : ℚ) : BudgetRule :=
  { rule_id := "daily_budget_limit"
    name := "Daily Budget Limit"
    budget_type := "daily"
    amount_usd := dailyLimit
    enforcement_level := EnforcementLevel.blocking
    actions := [EnforcementAction.warn, EnforcementAction.block]
    warning_threshold := 80
    critical_threshold := 95
    enabled := true
    created_at := ""
    updated_at := "" }

/-- The `per_query_cost_limit` rule literal from `initialize_default_rules`,
parameterized by `config.max_query_cost_usd`. -/
def mkPerQueryRule (maxQueryCost : ℚ) : BudgetRule :=
  { rule_id := "per_query_cost_limit"
    name := "Per-Query Cost Limit"
    budget_type := "per_query"
    amount_usd := maxQueryCost
    enforcement_level := EnforcementLevel.blocking
    actions := [EnforcementAction.warn, EnforcementAction.block]
    warning_threshold := 80
    critical_threshold := 100
    enabled := true
    created_at := ""
    updated_at := "" }

/-- The `weekly_budget_limit` rule literal from `initialize_default_rules`
(7 times the daily limit). -/
def mkWeeklyRule (dailyLimit : ℚ) : BudgetRule :=
  { rule_id := "weekly_budget_limit"
    name := "Weekly Budget Limit"
    budget_type := "weekly"
    amount_usd := dailyLimit * 7
    enforcement_level := EnforcementLevel.throttling
    actions := [EnforcementAction.warn, EnforcementAction.throttle]
    warning_threshold := 75
    critical_threshold := 90
    enabled := true
    created_at := ""
    updated_at := "" }

/-- The `emergency_budget_limit` rule literal from `initialize_default_rules`
(150% of the daily limit, enforcement level emergency). -/
def mkEmergencyRule (dailyLimit : ℚ) : BudgetRule :=
  { rule_id := "emergency_budget_limit"
    name := "Emergency Budget Limit"
    budget_type := "daily"
    amount_usd := dailyLimit * (3/2)
    enforcement_level := EnforcementLevel.emergency
    actions := [EnforcementAction.emergencyStop]
    warning_threshold := 100
    critical_threshold := 150
    enabled := true
    created_at := ""
    updated_at := "" }

/-- Mirrors `initialize_default_rules` in budget_enforcer.py: the four
default rules, in list order. -/
def defaultBudgetRules (dailyLimit maxQueryCost : ℚ) : List BudgetRule :=
  [mkDailyRule dailyLimit, mkPerQueryRule maxQueryCost,
   mkWeeklyRule dailyLimit, mkEmergencyRule dailyLimit]

/-- Mirrors `add_budget_rule` in budget_enforcer.py: overwrites the id and
timestamps and appends the rule; no validation of any kind is performed. -/
def add_budget_rule (rules : List BudgetRule) (now : String) (rule : BudgetRule) :
    List BudgetRule :=
  rules ++ [{ rule with rule_id := String.append "rule_" now,
                        created_at := now, updated_at := now }]

/-- Rule evaluation status as produced by `get_current_budget_status`. -/
inductive RuleStatus where
  | healthy
  | warning
  | exceeded
  | critical
deriving DecidableEq, Repr, BEq

/-- Mirrors `percentage_used` in `get_current_budget_status`:
`(current / amount_usd * 100) if amount_usd > 0 else 0`. -/
def percentage_used (currentAmount : ℚ) (rule : BudgetRule) : ℚ :=
  if rule.amount_usd > 0 then currentAmount / rule.amount_usd * 100 else 0

/-- Mirrors the status-classification if/elif chain of
`get_current_budget_status` (budget_enforcer.py lines 293-304):
critical is checked first, then WARNING, then exceeded, else healthy. -/
def classifyStatus (pct : ℚ) (rule : BudgetRule) : RuleStatus :=
  if pct ≥ rule.critical_threshold then RuleStatus.critical
  else if pct ≥ rule.warning_threshold then RuleStatus.warning
  else if pct ≥ 100 then RuleStatus.exceeded
  else RuleStatus.healthy

/-- The classification order as the spec sentence states it (critical,
then exceeded at 100, then warning, else healthy); written from the
spec's words for comparison with `classifyStatus`. -/
def classifyStatusSpec (pct : ℚ) (rule : BudgetRule) : RuleStatus :=
  if pct ≥ rule.critical_threshold then RuleStatus.critical
  else if pct ≥ 100 then RuleStatus.exceeded
  else if pct ≥ rule.warning_threshold then RuleStatus.warning
  else RuleStatus.healthy

/-- Mirrors `_determine_enforcement_action` in budget_enforcer.py. -/
def determine_enforcement_action (status : RuleStatus) : EnforcementAction :=
  if status = RuleStatus.critical then EnforcementAction.emergencyStop
  else if status = RuleStatus.exceeded then EnforcementAction.block
  else if status = RuleStatus.warning then EnforcementAction.warn
  else EnforcementAction.allow

/-- Mirrors the per-query check of `can_execute_query`: the first enabled
`per_query` rule denies when the estimated cost strictly exceeds its limit. -/
def perQueryDenies (rules : List BudgetRule) (estimatedCost : ℚ) : Bool :=
  match rules.find? (fun r => r.budget_type == "per_query" && r.enabled) with
  | some r => decide (estimatedCost > r.amount_usd)
  | none => false

/-- Mirrors the daily check of `can_execute_query`: the first enabled
`daily` rule denies when current daily spend plus the estimate strictly
exceeds its limit. -/
def dailyDenies (rules : List BudgetRule) (currentDaily estimatedCost : ℚ) : Bool :=
  match rules.find? (fun r => r.budget_type == "daily" && r.enabled) with
  | some r => decide (currentDaily + estimatedCost > r.amount_usd)
  | none => false

/-- Mirrors the emergency check of `can_execute_query`: the first enabled
rule with enforcement level emergency denies when current daily spend plus
the estimate strictly exceeds its ceiling. -/
def emergencyDenies (rules : List BudgetRule) (currentDaily estimatedCost : ℚ) : Bool :=
  match rules.find? (fun r =>
      r.enforcement_level == EnforcementLevel.emergency && r.enabled) with
  | some r => decide (currentDaily + estimatedCost > r.amount_usd)
  | none => false

/-- Mirrors `can_execute_query` in budget_enforcer.py (lines 340-369) on
the non-error path, returning `(allowed, action)`: the per-query check runs
first, then the daily check, then the emergency check; the first check that
denies short-circuits the remainder. -/
def can_execute_query (rules : List BudgetRule) (currentDaily estimatedCost : ℚ) :
    Bool × EnforcementAction :=
  if perQueryDenies rules estimatedCost then
    (false, EnforcementAction.block)
  else if dailyDenies rules currentDaily estimatedCost then
    (false, EnforcementAction.block)
  else if emergencyDenies rules currentDaily estimatedCost then
    (false, EnforcementAction.emergencyStop)
  else
    (true, EnforcementAction.allow)

/-- Cost of processed bytes in `estimate_query_cost` (query_cost_tracker.py):
`(bytes_processed / 1024^4) * 5.0`, i.e. $5 per TB. -/
def bytesCost (bytesProcessed : ℕ) : ℚ :=
  (bytesProcessed : ℚ) / 1024 ^ 4 * 5

/-- Slot cost used throughout query_cost_tracker.py:
`(slots / (1000 * 3600)) * 0.01`, i.e. $0.01 per slot-hour. -/
def slotsCost (slotMs : ℕ) : ℚ :=
  (slotMs : ℚ) / (1000 * 3600) * (1 / 100)

/-- Mirrors `estimate_query_cost` in query_cost_tracker.py.  The dry run is
modelled as `Option ℕ` (the backend's `total_bytes_processed`, or `none`
when the dry run raises).  On success the estimate is the bytes cost plus
the fixed 1000-slot-ms surcharge; on failure the function returns the
estimate `0.0` together with an error marker (the `{"error": ...}`
breakdown), exactly as the `except` branch does. -/
def estimate_query_cost (dryRun : Option ℕ) : ℚ × Bool :=
  match dryRun with
  | some bytesProcessed => (bytesCost bytesProcessed + slotsCost 1000, false)
  | none => (0, true)

/-- Mirrors the priority chain of `track_query_execution`
(query_cost_tracker.py lines 176-184): strict comparisons against
`max_query_cost_usd`, half of it, and a fifth of it. -/
def queryPriority (maxQueryCost actualCost : ℚ) : String :=
  if actualCost > maxQueryCost then "critical"
  else if actualCost > maxQueryCost * (1 / 2) then "high"
  else if actualCost > maxQueryCost * (1 / 5) then "medium"
  else "low"

/-- The fields of a finished `QueryJob` that `track_query_execution` reads. -/
structure JobInfo where
  total_bytes_processed : Option ℕ
  total_slot_ms : Option ℕ
deriving DecidableEq, Repr

/-- The cost-relevant fields of the `QueryCostRecord` dataclass. -/
structure QueryCostRecord where
  date : String
  estimated_cost_usd : ℚ
  actual_cost_usd : ℚ
  cost_difference_usd : ℚ
  job_status : String
  priority : String
deriving DecidableEq, Repr

/-- Mirrors the actual-cost computation of `track_query_execution`
(lines 160-171): start from the estimate, replace with the bytes cost when
the job reports `total_bytes_processed`, and add the slots cost when the
job reports `total_slot_ms`. -/
def actualCostOf (estimatedCost : ℚ) (job : Option JobInfo) : ℚ :=
  match job with
  | none => estimatedCost
  | some j =>
    let base := match j.total_bytes_processed with
      | some b => bytesCost b
      | none => estimatedCost
    match j.total_slot_ms with
    | some s => base + slotsCost s
    | none => base

/-- Mirrors the record built by `track_query_execution` on its normal path
(query_cost_tracker.py lines 157-209): estimate the query, derive the
actual cost from the job, set the difference to actual minus estimated,
and classify the priority from the actual cost. -/
def track_query_execution (maxQueryCost : ℚ) (date : String) (dryRun : Option ℕ)
    (job : Option JobInfo) (errorMessage : Option String) : QueryCostRecord :=
  let estimatedCost := (estimate_query_cost dryRun).1
  let actualCost := actualCostOf estimatedCost job
  { date := date
    estimated_cost_usd := estimatedCost
    actual_cost_usd := actualCost
    cost_difference_usd := actualCost - estimatedCost
    job_status := if errorMessage.isNone then "DONE" else "ERROR"
    priority := queryPriority maxQueryCost actualCost }

/-- Mirrors the minimal record returned by the `except` branch of
`track_query_execution` (lines 221-243): all costs zero, status ERROR,
priority low. -/
def trackErrorRecord (date : String) : QueryCostRecord :=
  { date := date
    estimated_cost_usd := 0
    actual_cost_usd := 0
    cost_difference_usd := 0
    job_status := "ERROR"
    priority := "low" }

/-- Mirrors the `total_cost` field of
`QueryCostTracker.get_daily_cost_breakdown` (lines 356-435): the sum of
`estimated_cost_usd` over the records whose timestamp starts with the
date (0.0 when there are none). -/
def tracker_daily_breakdown_total (records : List QueryCostRecord) (date : String) : ℚ :=
  ((records.filter (fun r => r.date == date)).map
    (fun r => r.estimated_cost_usd)).sum

/-- Mirrors the `total_cost_usd` field of `get_query_cost_summary`
(lines 245-311): `none` models the `{"error": ...}` result returned when
no records fall in the window; otherwise the sum of `actual_cost_usd`. -/
def query_cost_summary_total (records : List QueryCostRecord) : Option ℚ :=
  if records.isEmpty then none
  else some ((records.map (fun r => r.actual_cost_usd)).sum)

/-- Mirrors the daily figure assembled by `get_current_budget_status`
(budget_enforcer.py lines 263-273): the billing service's
`get_daily_cost_breakdown` total when it succeeds (`some`), else the query
tracker's summary `total_cost_usd`, else 0.0. -/
def budget_status_daily_cost (billingDaily : Option ℚ)
    (records : List QueryCostRecord) : ℚ :=
  match billingDaily with
  | some c => c
  | none =>
    match query_cost_summary_total records with
    | some s => s
    | none => 0

/-- The fields of the `CostTrend` dataclass that the claims touch. -/
structure CostTrend where
  total_cost : ℚ
  cost_change_percent : ℚ
  trend_direction : String
deriving DecidableEq, Repr

/-- Mirrors one iteration of the trend loop in `analyze_cost_trends`
(cost_history.py lines 364-385): for a consecutive pair of period
aggregates, the change percent is relative to the previous total (0 when
it is not positive) and the direction is by the SIGN of the raw change. -/
def trendOfPair (prevTotal currTotal : ℚ) : CostTrend :=
  let costChange := currTotal - prevTotal
  let costChangePercent := if prevTotal > 0 then costChange / prevTotal * 100 else 0
  { total_cost := currTotal
    cost_change_percent := costChangePercent
    trend_direction :=
      if costChange > 0 then "increasing"
      else if costChange < 0 then "decreasing"
      else "stable" }

/-- Mirrors the trend loop of `analyze_cost_trends` over one granularity:
records with index `i > 0` are paired with their predecessor, so `n`
period totals yield `n - 1` trends. -/
def analyze_cost_trends (periodTotals : List ℚ) : List CostTrend :=
  (periodTotals.zip periodTotals.tail).map (fun p => trendOfPair p.1 p.2)

/-- The direction rule as the spec sentence states it (stable whenever the
magnitude of the change percent is at most 5, else by sign); written from
the spec's words for comparison with `trendOfPair`. -/
def trendDirectionSpec (costChangePercent : ℚ) : String :=
  if |costChangePercent| ≤ 5 then "stable"
  else if costChangePercent > 0 then "increasing"
  else "decreasing"

/-- Mean of a list of daily totals, as in `detect_cost_anomalies`. -/
def meanCost (costs : List ℚ) : ℚ := costs.sum / costs.length

/-- Population variance of the daily totals, as in `detect_cost_anomalies`
(cost_history.py line 440): mean of squared deviations. -/
def varianceOf (costs : List ℚ) : ℚ :=
  ((costs.map (fun c => (c - meanCost costs) ^ 2)).sum) / costs.length

/-- Embeds the comparison `z > t` of `detect_cost_anomalies`, where
`z = diff / sqrt variance` when the standard deviation is positive and 0
otherwise, `diff = |cost - mean| ≥ 0` and `t > 0`:
squared on both sides it is `diff^2 > t^2 * variance`, which avoids the
irrational square root while deciding exactly the same inequality. -/
def zExceeds (diff variance t : ℚ) : Bool :=
  if variance > 0 then decide (diff ^ 2 > t ^ 2 * variance) else false

/-- The anomaly fields that the claims touch. -/
structure CostAnomaly where
  anomaly_type : String
  severity : String
  expected_cost : ℚ
  actual_cost : ℚ
deriving DecidableEq, Repr

/-- Mirrors the severity chain of `detect_cost_anomalies` (line 451):
critical when `z > 3.0`, high when `z > 2.5`, else medium. -/
def anomalySeverity (diff variance : ℚ) : String :=
  if zExceeds diff variance 3 then "critical"
  else if zExceeds diff variance (5 / 2) then "high"
  else "medium"

/-- Mirrors the anomaly built for one daily record in
`detect_cost_anomalies` (lines 445-466): flagged exactly when `z > 2.0`;
kind spike when the cost is above the mean, else drop. -/
def anomalyOfDay (costs : List ℚ) (cost : ℚ) : Option CostAnomaly :=
  let mean := meanCost costs
  let diff := |cost - mean|
  if zExceeds diff (varianceOf costs) 2 then
    some { anomaly_type := if cost > mean then "spike" else "drop"
           severity := anomalySeverity diff (varianceOf costs)
           expected_cost := mean
           actual_cost := cost }
  else
    none

/-- Mirrors `detect_cost_anomalies` (cost_history.py lines 422-471):
fewer than 3 daily records yield no anomalies; otherwise each day whose
z-score exceeds 2.0 contributes one anomaly, in record order. -/
def detect_cost_anomalies (costs : List ℚ) : List CostAnomaly :=
  if costs.length < 3 then []
  else costs.filterMap (anomalyOfDay costs)

/-- A rule violating both creation-time constraints of the spec:
non-positive limit and warning threshold above the critical threshold. -/
def invalidRule : BudgetRule :=
  { rule_id := "bad"
    name := "Bad Rule"
    budget_type := "daily"
    amount_usd := -1
    enforcement_level := EnforcementLevel.blocking
    actions := [EnforcementAction.block]
    warning_threshold := 90
    critical_threshold := 80
    enabled := true
    created_at := ""
    updated_at := "" }

/-- A ledger record whose actual cost differs from its estimate. -/
def divergentRecord : QueryCostRecord :=
  { date := "2025-01-01"
    estimated_cost_usd := 1
    actual_cost_usd := 2
    cost_difference_usd := 1
    job_status := "DONE"
    priority := "high" }

/-- A ledger record whose actual cost equals its estimate. -/
def balancedRecord : QueryCostRecord :=
  { date := "2025-01-01"
    estimated_cost_usd := 2
    actual_cost_usd := 2
    cost_difference_usd := 0
    job_status := "DONE"
    priority := "high" }

/-! ### Evaluation lemmas for rule lookup on the concrete rule sets -/

theorem find_perQuery_defaults (d q : ℚ) :
    (defaultBudgetRules d q).find?
      (fun r => r.budget_type == "per_query" && r.enabled) = some (mkPerQueryRule q) := rfl

theorem find_daily_defaults (d q : ℚ) :
    (defaultBudgetRules d q).find?
      (fun r => r.budget_type == "daily" && r.enabled) = some (mkDailyRule d) := rfl

theorem find_emergency_defaults (d q : ℚ) :
    (defaultBudgetRules d q).find?
      (fun r => r.enforcement_level == EnforcementLevel.emergency && r.enabled)
      = some (mkEmergencyRule d) := rfl

theorem find_perQuery_scenario (d : ℚ) :
    ([mkDailyRule d, mkEmergencyRule d]).find?
      (fun r => r.budget_type == "per_query" && r.enabled) = none := rfl

theorem find_daily_scenario (d : ℚ) :
    ([mkDailyRule d, mkEmergencyRule d]).find?
      (fun r => r.budget_type == "daily" && r.enabled) = some (mkDailyRule d) := rfl

theorem find_emergency_scenario (d : ℚ) :
    ([mkDailyRule d, mkEmergencyRule d]).find?
      (fun r => r.enforcement_level == EnforcementLevel.emergency && r.enabled)
      = some (mkEmergencyRule d) := rfl

/-! ### Shared evaluation and monotonicity lemmas -/

theorem scenario_pq_false (c : ℚ) :
    perQueryDenies [mkDailyRule 5, mkEmergencyRule 5] c = false := by
  rw [perQueryDenies, find_perQuery_scenario]

theorem scenario_daily_4_4 :
    dailyDenies [mkDailyRule 5, mkEmergencyRule 5] 4 4 = true := by
  rw [dailyDenies, find_daily_scenario]
  norm_num [mkDailyRule]

theorem scenario_daily_4_2 :
    dailyDenies [mkDailyRule 5, mkEmergencyRule 5] 4 2 = true := by
  rw [dailyDenies, find_daily_scenario]
  norm_num [mkDailyRule]

theorem defaults_pq_0_false :
    perQueryDenies (defaultBudgetRules 5 1) 0 = false := by
  rw [perQueryDenies, find_perQuery_defaults]
  norm_num [mkPerQueryRule]

theorem defaults_daily_0_0_false :
    dailyDenies (defaultBudgetRules 5 1) 0 0 = false := by
  rw [dailyDenies, find_daily_defaults]
  norm_num [mkDailyRule]

theorem defaults_emergency_0_0_false :
    emergencyDenies (defaultBudgetRules 5 1) 0 0 = false := by
  rw [emergencyDenies, find_emergency_defaults]
  norm_num [mkEmergencyRule]

theorem perQueryDenies_mono {rules : List BudgetRule} {c1 c2 : ℚ} (h : c1 ≤ c2)
    (hd : perQueryDenies rules c1 = true) : perQueryDenies rules c2 = true := by
  unfold perQueryDenies at hd ⊢
  cases hfind : rules.find? (fun r => r.budget_type == "per_query" && r.enabled) with
  | none => rw [hfind] at hd; simp at hd
  | some r =>
    rw [hfind] at hd
    simp only [decide_eq_true_eq] at hd ⊢
    linarith

theorem dailyDenies_mono {rules : List BudgetRule} {cd c1 c2 : ℚ} (h : c1 ≤ c2)
    (hd : dailyDenies rules cd c1 = true) : dailyDenies rules cd c2 = true := by
  unfold dailyDenies at hd ⊢
  cases hfind : rules.find? (fun r => r.budget_type == "daily" && r.enabled) with
  | none => rw [hfind] at hd; simp at hd
  | some r =>
    rw [hfind] at hd
    simp only [decide_eq_true_eq] at hd ⊢
    linarith

theorem emergencyDenies_mono {rules : List BudgetRule} {cd c1 c2 : ℚ} (h : c1 ≤ c2)
    (hd : emergencyDenies rules cd c1 = true) : emergencyDenies rules cd c2 = true := by
  unfold emergencyDenies at hd ⊢
  cases hfind : rules.find?
      (fun r => r.enforcement_level == EnforcementLevel.emergency && r.enabled) with
  | none => rw [hfind] at hd; simp at hd
  | some r =>
    rw [hfind] at hd
    simp only [decide_eq_true_eq] at hd ⊢
    linarith

theorem canExecute_denied_iff (rules : List BudgetRule) (cd c : ℚ) :
    (can_execute_query rules cd c).1 = false ↔
      perQueryDenies rules c = true ∨ dailyDenies rules cd c = true ∨
        emergencyDenies rules cd c = true := by
  unfold can_execute_query
  split_ifs with h1 h2 h3 <;> simp_all

/-! ### Claim C1 -/

/-- Claim C1, counterexample: daily limit $5.00, emergency ceiling $7.50,
$4.00 already spent, projected cost $4.00.  The total $8.00 exceeds both
the enabled daily rule's limit and the enabled emergency rule's ceiling,
yet `can_execute_query` returns denial with plain `block`, not
`emergencyStop` as the claim demands: the daily check runs first and
short-circuits. -/
theorem C1_counterexample :
    ((4 : ℚ) + 4 > (mkDailyRule 5).amount_usd ∧
      (4 : ℚ) + 4 > (mkEmergencyRule 5).amount_usd ∧
      (mkDailyRule 5).enabled = true ∧ (mkEmergencyRule 5).enabled = true) ∧
    can_execute_query [mkDailyRule 5, mkEmergencyRule 5] 4 4
      = (false, EnforcementAction.block) ∧
    EnforcementAction.block ≠ EnforcementAction.emergencyStop := by
  refine ⟨⟨by norm_num [mkDailyRule], by norm_num [mkEmergencyRule], rfl, rfl⟩, ?_, by simp⟩
  rw [can_execute_query, scenario_pq_false, scenario_daily_4_4]
  simp

/-- Claim C1 (amended): in `can_execute_query` the daily check runs before
the emergency check and the first denial short-circuits, so whenever the
per-operation check passes and the daily rule denies, the result is denial
with plain `block` — even when the emergency ceiling is also exceeded. -/
theorem C1_daily_block_takes_precedence (rules : List BudgetRule) (cd c : ℚ)
    (hpq : perQueryDenies rules c = false)
    (hd : dailyDenies rules cd c = true) :
    can_execute_query rules cd c = (false, EnforcementAction.block) := by
  rw [can_execute_query, hpq, hd]
  simp

/-- Claim C1 witness: the amended theorem applied to the emergency-override
scenario (daily $5.00, emergency $7.50, $4.00 spent, cost $4.00). -/
theorem C1_daily_block_takes_precedence_witness :
    can_execute_query [mkDailyRule 5, mkEmergencyRule 5] 4 4
      = (false, EnforcementAction.block) :=
  C1_daily_block_takes_precedence [mkDailyRule 5, mkEmergencyRule 5] 4 4
    (scenario_pq_false 4) scenario_daily_4_4

/-! ### Claim C2 -/

/-- Claim C2, counterexample: when the dry run fails,
`estimate_query_cost` returns a zero estimate together with the error
marker — and feeding that zero estimate to `can_execute_query` with the
default rules and no spend yields `(allowed, allow)`: the failed estimate
passes admission as a $0-cost operation, with no conservative default. -/
theorem C2_counterexample :
    estimate_query_cost Option.none = (0, true) ∧
    can_execute_query (defaultBudgetRules 5 1) 0 (estimate_query_cost Option.none).1
      = (true, EnforcementAction.allow) := by
  refine ⟨rfl, ?_⟩
  rw [show (estimate_query_cost Option.none).1 = 0 from rfl,
    can_execute_query, defaults_pq_0_false, defaults_daily_0_0_false,
    defaults_emergency_0_0_false]
  simp

/-- Claim C2 (amended): a failed dry run produces the estimate 0.0 with an
error marker, and the Rule Engine applies no conservative default: whenever
current spend passes all three checks at cost 0, the failed estimate is
admitted as a $0-cost operation with action `allow`. -/
theorem C2_failed_estimate_admitted_as_zero (rules : List BudgetRule) (cd : ℚ)
    (hpq : perQueryDenies rules 0 = false)
    (hd : dailyDenies rules cd 0 = false)
    (he : emergencyDenies rules cd 0 = false) :
    estimate_query_cost Option.none = (0, true) ∧
    can_execute_query rules cd (estimate_query_cost Option.none).1
      = (true, EnforcementAction.allow) := by
  refine ⟨rfl, ?_⟩
  rw [show (estimate_query_cost Option.none).1 = 0 from rfl,
    can_execute_query, hpq, hd, he]
  simp

/-- Claim C2 witness: the amended theorem applied to the default rule set
with no spend. -/
theorem C2_failed_estimate_admitted_as_zero_witness :
    can_execute_query (defaultBudgetRules 5 1) 0 (estimate_query_cost Option.none).1
      = (true, EnforcementAction.allow) ∧
    estimate_query_cost Option.none = (0, true) := by
  have h := C2_failed_estimate_admitted_as_zero (defaultBudgetRules 5 1) 0
    defaults_pq_0_false defaults_daily_0_0_false defaults_emergency_0_0_false
  exact ⟨h.2, h.1⟩

/-! ### Claim C3 -/

/-- Claim C3, counterexample: the enabled emergency rule with limit $7.50
(warning threshold 100, critical threshold 150) at cumulative spend $9.00
gives pct = 120, which satisfies warningThreshold ≤ pct, 100 ≤ pct and
pct < criticalThreshold; the claim classifies it `exceeded`, but the code
checks the warning threshold BEFORE the 100% test and returns `warning`. -/
theorem C3_counterexample :
    (mkEmergencyRule 5).enabled = true ∧
    (0 : ℚ) < (mkEmergencyRule 5).amount_usd ∧
    percentage_used 9 (mkEmergencyRule 5) = 120 ∧
    (mkEmergencyRule 5).warning_threshold ≤ 120 ∧ (100 : ℚ) ≤ 120 ∧
    (120 : ℚ) < (mkEmergencyRule 5).critical_threshold ∧
    classifyStatus (percentage_used 9 (mkEmergencyRule 5)) (mkEmergencyRule 5)
      = RuleStatus.warning ∧
    classifyStatusSpec (percentage_used 9 (mkEmergencyRule 5)) (mkEmergencyRule 5)
      = RuleStatus.exceeded ∧
    RuleStatus.warning ≠ RuleStatus.exceeded := by
  refine ⟨rfl, by norm_num [mkEmergencyRule], by norm_num [percentage_used, mkEmergencyRule],
    by norm_num [mkEmergencyRule], by norm_num, by norm_num [mkEmergencyRule], ?_, ?_, by simp⟩
  · norm_num [classifyStatus, percentage_used, mkEmergencyRule]
  · norm_num [classifyStatusSpec, percentage_used, mkEmergencyRule]

/-- Claim C3 (amended): the code classifies in the fixed order critical →
warning → exceeded → healthy, so every enabled rule with positive limit
whose pct lies at or above the warning threshold and strictly below the
critical threshold — including pct ≥ 100 — is classified `warning`, never
`exceeded`. -/
theorem C3_warning_checked_before_exceeded (rule : BudgetRule) (currentAmount : ℚ)
    (he : rule.enabled = true) (hl : 0 < rule.amount_usd)
    (hw : rule.warning_threshold ≤ percentage_used currentAmount rule)
    (hc : percentage_used currentAmount rule < rule.critical_threshold) :
    classifyStatus (percentage_used currentAmount rule) rule = RuleStatus.warning := by
  rw [classifyStatus, if_neg (not_le.mpr hc), if_pos hw]

/-- Claim C3 witness: the amended theorem at the emergency rule with
limit $7.50 and spend $9.00 (pct = 120). -/
theorem C3_warning_checked_before_exceeded_witness :
    classifyStatus (percentage_used 9 (mkEmergencyRule 5)) (mkEmergencyRule 5)
      = RuleStatus.warning :=
  C3_warning_checked_before_exceeded (mkEmergencyRule 5) 9 rfl
    (by norm_num [mkEmergencyRule])
    (by norm_num [percentage_used, mkEmergencyRule])
    (by norm_num [percentage_used, mkEmergencyRule])

/-! ### Claim C4 -/

/-- Claim C4: admission monotonicity.  With a fixed rule set and fixed
cumulative daily spend, if `can_execute_query` denies a projected cost
`c1`, it also denies every projected cost `c2 ≥ c1`: each of the three
checks compares a quantity monotone in the projected cost against a fixed
limit. -/
theorem C4_admission_monotonicity (rules : List BudgetRule) (cd c1 c2 : ℚ)
    (h12 : c1 ≤ c2) (hdenied : (can_execute_query rules cd c1).1 = false) :
    (can_execute_query rules cd c2).1 = false := by
  rw [canExecute_denied_iff] at hdenied ⊢
  rcases hdenied with h | h | h
  · exact Or.inl (perQueryDenies_mono h12 h)
  · exact Or.inr (Or.inl (dailyDenies_mono h12 h))
  · exact Or.inr (Or.inr (emergencyDenies_mono h12 h))

/-- Claim C4 witness: with daily limit $5.00 and $4.00 spent, cost $2.00
is denied, so by monotonicity cost $3.00 is denied as well. -/
theorem C4_admission_monotonicity_witness :
    (can_execute_query [mkDailyRule 5, mkEmergencyRule 5] 4 3).1 = false :=
  C4_admission_monotonicity [mkDailyRule 5, mkEmergencyRule 5] 4 2 3 (by norm_num)
    (by rw [can_execute_query, scenario_pq_false, scenario_daily_4_2]; simp)

/-! ### Claim C5 -/

/-- Claim C5, counterexample: the consecutive weekly totals $10 and $10.40
give costChangePercent = 4, whose magnitude is within the claimed 5-point
stability band, yet the emitted trend direction is `increasing` (the code
classifies by the sign of the raw change, with no 5% threshold), while the
spec-side rule yields `stable`. -/
theorem C5_counterexample :
    (trendOfPair 10 (52/5)).cost_change_percent = 4 ∧
    |(trendOfPair 10 (52/5)).cost_change_percent| ≤ 5 ∧
    (trendOfPair 10 (52/5)).trend_direction = "increasing" ∧
    trendDirectionSpec ((trendOfPair 10 (52/5)).cost_change_percent) = "stable" ∧
    analyze_cost_trends [10, 52/5] = [trendOfPair 10 (52/5)] ∧
    "increasing" ≠ "stable" := by
  have hpct : (trendOfPair 10 (52/5)).cost_change_percent = 4 := by
    show (if (10:ℚ) > 0 then ((52/5 : ℚ) - 10) / 10 * 100 else 0) = 4
    norm_num
  refine ⟨hpct, by rw [hpct]; norm_num, ?_, by rw [hpct]; norm_num [trendDirectionSpec], rfl, by simp⟩
  show (if (52/5 : ℚ) - 10 > 0 then "increasing"
        else if (52/5 : ℚ) - 10 < 0 then "decreasing" else "stable") = "increasing"
  norm_num

/-- Claim C5 (amended): the emitted trend direction for a consecutive pair
of period aggregates is determined by the SIGN of the raw cost change
alone — `increasing` when the total grew, `decreasing` when it shrank, and
`stable` only when the change is exactly zero; there is no 5% stability
band. -/
theorem C5_direction_by_sign (prevTotal currTotal : ℚ) :
    (trendOfPair prevTotal currTotal).trend_direction =
      (if prevTotal < currTotal then "increasing"
       else if currTotal < prevTotal then "decreasing" else "stable") := by
  show (if currTotal - prevTotal > 0 then "increasing"
        else if currTotal - prevTotal < 0 then "decreasing" else "stable") = _
  split_ifs with h1 h2 h3 h4 h5 <;> first | rfl | (exfalso; linarith)

/-! ### Claim C6 -/

/-- Claim C6, counterexample: with per-operation limit $1.00 and actual
cost exactly $1.00 (100% of the limit), the code's strict comparison
`actual > limit` fails and the record is classified `high`, not `critical`
as the claim's inclusive-threshold reading demands. -/
theorem C6_counterexample :
    queryPriority 1 1 = "high" ∧ "high" ≠ "critical" := by
  constructor
  · norm_num [queryPriority]
  · simp

/-- Claim C6 (amended): priority is determined from the actual cost with
STRICT thresholds — above 100% of the per-operation limit → critical,
above 50% → high, above 20% → medium, else low; in particular an actual
cost exactly equal to the limit is classified high, not critical. -/
theorem C6_strict_priority_thresholds (maxQueryCost actualCost : ℚ)
    (hl : 0 < maxQueryCost) :
    (maxQueryCost < actualCost → queryPriority maxQueryCost actualCost = "critical") ∧
    (actualCost = maxQueryCost → queryPriority maxQueryCost actualCost = "high") ∧
    (maxQueryCost * (1/2) < actualCost → actualCost ≤ maxQueryCost →
      queryPriority maxQueryCost actualCost = "high") ∧
    (maxQueryCost * (1/5) < actualCost → actualCost ≤ maxQueryCost * (1/2) →
      queryPriority maxQueryCost actualCost = "medium") ∧
    (actualCost ≤ maxQueryCost * (1/5) →
      queryPriority maxQueryCost actualCost = "low") := by
  unfold queryPriority
  refine ⟨?_, ?_, ?_, ?_, ?_⟩ <;> intros <;> split_ifs <;>
    first | rfl | (exfalso; linarith)

/-- Claim C6 witness: the amended theorem at limit $1.00 and actual cost
$1.00 — exactly the limit — classified high. -/
theorem C6_strict_priority_thresholds_witness :
    queryPriority 1 1 = "high" :=
  (C6_strict_priority_thresholds 1 1 (by norm_num)).2.1 rfl

/-! ### Claim C7 -/

/-- Claim C7, counterexample: for the daily cost series
[10, 10, 10, 10, 100] the mean is 28 and the population variance 1296
(standard deviation 36), so the day with cost 100 has z-score exactly
72/36 = 2.0, which does NOT exceed the strict 2.0 flag threshold: the
detector emits no anomaly at all, contradicting the claim that the day is
flagged as a spike with severity high or critical. -/
theorem C7_counterexample :
    meanCost [10, 10, 10, 10, 100] = 28 ∧
    detect_cost_anomalies [10, 10, 10, 10, 100] = [] := by
  constructor
  · norm_num [meanCost, List.sum_cons, List.sum_nil]
  · norm_num [detect_cost_anomalies, anomalyOfDay, zExceeds, meanCost, varianceOf,
      List.sum_cons, List.sum_nil, List.filterMap]

/-- Claim C7 (amended): for the series [10, 10, 10, 10, 100] the mean is
28 and the population variance 1296, the squared deviation of the day with
cost 100 equals exactly 2² times the variance (z-score exactly 2.0), and
since the detector flags only when z strictly exceeds 2.0, no anomaly is
emitted for this series. -/
theorem C7_z_score_exactly_two :
    meanCost [10, 10, 10, 10, 100] = 28 ∧
    varianceOf [10, 10, 10, 10, 100] = 1296 ∧
    ((100 : ℚ) - meanCost [10, 10, 10, 10, 100]) ^ 2
      = 2 ^ 2 * varianceOf [10, 10, 10, 10, 100] ∧
    detect_cost_anomalies [10, 10, 10, 10, 100] = [] := by
  refine ⟨by norm_num [meanCost, List.sum_cons, List.sum_nil],
    by norm_num [varianceOf, meanCost, List.sum_cons, List.sum_nil],
    by norm_num [varianceOf, meanCost, List.sum_cons, List.sum_nil], ?_⟩
  norm_num [detect_cost_anomalies, anomalyOfDay, zExceeds, meanCost, varianceOf,
    List.sum_cons, List.sum_nil, List.filterMap]

/-! ### Claim C8 -/

/-- Claim C8, counterexample: a rule with limit −$1.00 and warning
threshold 90 above its critical threshold 80 violates both creation-time
constraints, yet `add_budget_rule` appends it to the rule set unchanged
(apart from id and timestamps) and reports no error: it is silently
accepted, contradicting the claimed ConfigurationError rejection. -/
theorem C8_counterexample :
    (invalidRule.amount_usd ≤ 0 ∧
      invalidRule.critical_threshold ≤ invalidRule.warning_threshold) ∧
    (add_budget_rule [] "0" invalidRule).map
        (fun r => (r.amount_usd, r.warning_threshold, r.critical_threshold, r.enabled))
      = [(-1, 90, 80, true)] := by
  refine ⟨⟨by norm_num [invalidRule], by norm_num [invalidRule]⟩, ?_⟩
  norm_num [add_budget_rule, invalidRule]

/-- Claim C8 (amended): `add_budget_rule` performs no validation at all: a
rule with non-positive limit or with warning threshold at or above the
critical threshold is appended to the rule set — the result is one rule
longer and contains a rule carrying the same invalid parameters. -/
theorem C8_no_validation_on_creation (rules : List BudgetRule) (now : String)
    (rule : BudgetRule)
    (h : rule.amount_usd ≤ 0 ∨ rule.critical_threshold ≤ rule.warning_threshold) :
    (add_budget_rule rules now rule).length = rules.length + 1 ∧
    ∃ r ∈ add_budget_rule rules now rule,
      (r.amount_usd ≤ 0 ∨ r.critical_threshold ≤ r.warning_threshold) := by
  constructor
  · simp [add_budget_rule]
  · rw [add_budget_rule]
    refine ⟨_, List.mem_append_right _ (List.mem_singleton_self _), ?_⟩
    simpa using h

/-- Claim C8 witness: the amended theorem applied to the empty rule set
and the doubly-invalid rule. -/
theorem C8_no_validation_on_creation_witness :
    (add_budget_rule [] "0" invalidRule).length = 1 ∧
    ∃ r ∈ add_budget_rule [] "0" invalidRule,
      (r.amount_usd ≤ 0 ∨ r.critical_threshold ≤ r.warning_threshold) := by
  have h := C8_no_validation_on_creation [] "0" invalidRule
    (Or.inl (by norm_num [invalidRule]))
  simpa using h

/-! ### Claim C9 -/

/-- Claim C9: for every record produced by `track_query_execution` — on
the normal path for any dry-run outcome, job fields and error message, and
on the error/fallback path — the stored cost difference equals the actual
cost minus the estimated cost exactly. -/
theorem C9_cost_difference_invariant (maxQueryCost : ℚ) (date : String)
    (dryRun : Option ℕ) (job : Option JobInfo) (errorMessage : Option String) :
    ((track_query_execution maxQueryCost date dryRun job errorMessage).cost_difference_usd
       = (track_query_execution maxQueryCost date dryRun job errorMessage).actual_cost_usd
         - (track_query_execution maxQueryCost date dryRun job errorMessage).estimated_cost_usd) ∧
    ((trackErrorRecord date).cost_difference_usd
       = (trackErrorRecord date).actual_cost_usd - (trackErrorRecord date).estimated_cost_usd) := by
  constructor
  · rfl
  · show (0 : ℚ) = 0 - 0
    norm_num

/-! ### Claim C10 -/

/-- Claim C10, counterexample: one ledger record for 2025-01-01 with
estimated cost $1.00 and actual cost $2.00.  The tracker's daily breakdown
total is the estimated-sum $1.00, but the daily spend figure assembled by
`get_current_budget_status` when the billing service fails — the figure
`can_execute_query` consumes — is the tracker summary's actual-sum $2.00:
the admission checks are not fed the estimated-sum breakdown. -/
theorem C10_counterexample :
    divergentRecord.date = "2025-01-01" ∧
    tracker_daily_breakdown_total [divergentRecord] "2025-01-01" = 1 ∧
    budget_status_daily_cost Option.none [divergentRecord] = 2 ∧
    (2 : ℚ) ≠ 1 := by
  refine ⟨rfl, ?_, ?_, by norm_num⟩
  · norm_num [tracker_daily_breakdown_total, divergentRecord, List.sum_cons, List.sum_nil]
  · norm_num [budget_status_daily_cost, query_cost_summary_total, divergentRecord,
      List.sum_cons, List.sum_nil]

/-- Claim C10 (amended): the tracker's daily breakdown total is the sum of
estimated costs over the date's records, while the daily figure behind the
admission checks (billing service unavailable) is the tracker summary's
sum of actual costs; the two coincide when every record's actual cost
equals its estimated cost. -/
theorem C10_estimated_vs_actual_totals (records : List QueryCostRecord) (date : String)
    (hne : records ≠ [])
    (hdate : ∀ r ∈ records, r.date = date)
    (hacc : ∀ r ∈ records, r.actual_cost_usd = r.estimated_cost_usd) :
    tracker_daily_breakdown_total records date
      = ((records.map (fun r => r.estimated_cost_usd)).sum) ∧
    budget_status_daily_cost Option.none records
      = tracker_daily_breakdown_total records date := by
  have hfilter : records.filter (fun r => r.date == date) = records := by
    apply List.filter_eq_self.mpr
    intro r hr
    simp [hdate r hr]
  have hbreak : tracker_daily_breakdown_total records date
      = ((records.map (fun r => r.estimated_cost_usd)).sum) := by
    rw [tracker_daily_breakdown_total, hfilter]
  refine ⟨hbreak, ?_⟩
  have hsum : query_cost_summary_total records
      = some ((records.map (fun r => r.actual_cost_usd)).sum) := by
    rw [query_cost_summary_total, if_neg]
    simpa using hne
  calc budget_status_daily_cost Option.none records
      = (records.map (fun r => r.actual_cost_usd)).sum := by
        show (match query_cost_summary_total records with
              | some s => s
              | none => 0) = _
        rw [hsum]
    _ = (records.map (fun r => r.estimated_cost_usd)).sum := by
        exact congrArg List.sum (List.map_congr_left hacc)
    _ = tracker_daily_breakdown_total records date := hbreak.symm

/-- Claim C10 witness: the amended theorem at a single record with equal
estimated and actual cost $2.00. -/
theorem C10_estimated_vs_actual_totals_witness :
    tracker_daily_breakdown_total [balancedRecord] "2025-01-01"
      = (([balancedRecord].map (fun r => r.estimated_cost_usd)).sum) ∧
    budget_status_daily_cost Option.none [balancedRecord]
      = tracker_daily_breakdown_total [balancedRecord] "2025-01-01" := by
  apply C10_estimated_vs_actual_totals [balancedRecord] "2025-01-01"
  · simp
  · intro r hr
    rw [List.mem_singleton] at hr
    subst hr
    rfl
  · intro r hr
    rw [List.mem_singleton] at hr
    subst hr
    rfl

end CostGovernance
